import Mathlib

/-!
Shallow embedding of the monerod-exporter core (src/client.rs, src/prometheus.rs,
src/metrics.rs) and proofs of the specification claims.

Modelling conventions:
* `u64`/`u32`/`usize` values are `Nat` (no arithmetic in the embedded code can
  overflow 64 bits except via `checked_sub`, which is modelled by truncated
  `Nat` subtraction, exactly `checked_sub(..).unwrap_or(0)`).
* `f64` is modelled exactly by the type `F` below: NaN, signed infinity, or an
  exact rational.  All floating point numbers produced by the exporter are
  casts of `u64` counters and sums/quotients/maxima of those, so the exact
  model tracks the code's structure; IEEE rounding of individual operations is
  abstracted away (casts and sums are taken exact).
* Network effects (the RPC gateway) are modelled by a `Gateway` record of
  responses; the exporter additionally returns the trace of gateway calls it
  issued, so that claims about which calls happen can be stated.
* Writing into a Rust `String` sink is infallible, so `fmt::Result` is
  modelled by `Except FmtError` where the renderer always returns `.ok`.
-/

/-- Exact model of Rust `f64` for the values arising in this exporter:
not-a-number, signed infinity, or an exact rational. -/
inductive F where
  | nan : F
  | inf : Bool → F
  | num : ℚ → F
deriving DecidableEq, Repr

/-- IEEE addition on the exact model (rounding abstracted away). -/
def F.add : F → F → F
  | .nan, _ => .nan
  | _, .nan => .nan
  | .inf s, .inf t => if s = t then .inf s else .nan
  | .inf s, .num _ => .inf s
  | .num _, .inf s => .inf s
  | .num a, .num b => .num (a + b)

/-- Rust `f64::max`: if one argument is NaN the other is returned, otherwise
the larger one. -/
def F.max : F → F → F
  | .nan, y => y
  | x, .nan => x
  | .inf true, _ => .inf true
  | _, .inf true => .inf true
  | .inf false, y => y
  | x, .inf false => x
  | .num a, .num b => .num (Max.max a b)

/-- IEEE division on the exact model: 0/0 is NaN, x/0 for x ≠ 0 is a signed
infinity (signed zero is not distinguished in the exact model). -/
def F.div : F → F → F
  | .nan, _ => .nan
  | _, .nan => .nan
  | .inf _, .inf _ => .nan
  | .inf s, .num b => .inf (s = decide (0 ≤ b))
  | .num _, .inf _ => .num 0
  | .num a, .num b =>
      if b = 0 then (if a = 0 then .nan else .inf (decide (0 < a)))
      else .num (a / b)

/-- Decimal digits of the fractional part of `q` (with `0 ≤ q < 1`), fuelled;
every value actually rendered by the exporter has a finite decimal expansion. -/
def fracDigits : Nat → ℚ → String
  | 0, _ => ""
  | n + 1, q =>
      if q = 0 then ""
      else toString ⌊q * 10⌋ ++ fracDigits n (q * 10 - (⌊q * 10⌋ : ℚ))

/-- Decimal rendering of an exact rational, matching Rust `Display` for `f64`
on values with a finite decimal expansion (integers print with no point). -/
def fmtQ (q : ℚ) : String :=
  if |q| - (⌊|q|⌋ : ℚ) = 0 then
    (if q < 0 then "-" else "") ++ toString ⌊|q|⌋.toNat
  else
    (if q < 0 then "-" else "") ++ toString ⌊|q|⌋.toNat ++ "." ++
      fracDigits 1100 (|q| - (⌊|q|⌋ : ℚ))

/-- Rust `Display` for `f64` as used by `write!(.., " {}\n", value)`. -/
def fmtF : F → String
  | .nan => "NaN"
  | .inf true => "inf"
  | .inf false => "-inf"
  | .num q => fmtQ q

/-! ### src/client.rs -/

/-- Opaque model of `reqwest::Error`. -/
structure HttpError where
  msg : String
deriving DecidableEq, Repr

/-- Opaque model of `serde_json::Error`. -/
structure DeserializeError where
  msg : String
deriving DecidableEq, Repr

/-- Model of `serde_json::Value`. -/
inductive Json where
  | null : Json
  | bool : Bool → Json
  | numb : ℚ → Json
  | str : String → Json
  | arr : List Json → Json
  | obj : List (String × Json) → Json
deriving Repr

/-- Model of `serde_json::Value::get(key)`: field lookup on an object, `None`
on every other value. -/
def Json.get : Json → String → Option Json
  | .obj kvs, key => (kvs.find? (fun kv => kv.1 = key)).map (·.2)
  | _, _ => none

/-- Model of `serde_json::Value::as_str`. -/
def Json.asStr : Json → Option String
  | .str s => some s
  | _ => none

/-- The `ClientError` enum of src/client.rs. -/
inductive ClientError where
  | HttpClient : HttpError → ClientError
  | ResponseDeserialization : DeserializeError → ClientError
  | NoResult : ClientError
  | UnexpectedStatus : ClientError
deriving DecidableEq, Repr

/-- The `status` extraction of `Client::call`:
`result.get("status").and_then(|v| v.as_str())`. -/
def jsonStatus (result : Json) : Option String :=
  (result.get "status").bind Json.asStr

/-- The response-processing logic of `Client::call` (src/client.rs lines
100-124).  The transport part (`post(..).send().json::<Value>()`) is modelled
by the `resp : Except HttpError Json` argument; `result_selector` and the
typed decode (`serde_json::from_value`) are passed as functions. -/
def Client.call {R : Type} (result_selector : Json → Option Json)
    (decode : Json → Except DeserializeError R)
    (resp : Except HttpError Json) : Except ClientError R :=
  match resp with
  | .error e => .error (.HttpClient e)
  | .ok response =>
      match result_selector response with
      | none => .error .NoResult
      | some result =>
          if jsonStatus result = some "OK" then
            (decode result).mapError ClientError.ResponseDeserialization
          else
            .error .UnexpectedStatus

/-- `Client::get_json_rpc_result`: selects the `"result"` field. -/
def Client.get_json_rpc_result (value : Json) : Option Json :=
  value.get "result"

/-! ### RPC data structures (src/client.rs) -/

/-- `InfoResponse` of src/client.rs. -/
structure InfoResponse where
  block_size_limit : Nat
  block_size_median : Nat
  block_weight_limit : Nat
  block_weight_median : Nat
  cumulative_difficulty : Nat
  database_size : Nat
  difficulty : Nat
  free_space : Nat
  grey_peerlist_size : Nat
  height : Nat
  incoming_connections_count : Nat
  offline : Bool
  outgoing_connections_count : Nat
  rpc_connections_count : Nat
  synchronized : Bool
  target : Nat
  target_height : Nat
  tx_count : Nat
  tx_pool_size : Nat
  untrusted : Bool
  white_peerlist_size : Nat
deriving DecidableEq, Repr

/-- `BlockHeadersRangeRequest` of src/client.rs. -/
structure BlockHeadersRangeRequest where
  start_height : Nat
  end_height : Nat
deriving DecidableEq, Repr

/-- `BlockHeader` of src/client.rs. -/
structure BlockHeader where
  block_size : Nat
  num_txes : Nat
  orphan_status : Bool
  reward : Nat
deriving DecidableEq, Repr

/-- `BlockHeadersRangeResponse` of src/client.rs. -/
structure BlockHeadersRangeResponse where
  headers : List BlockHeader
  untrusted : Bool
deriving DecidableEq, Repr

/-- `TransactionPoolStats` of src/client.rs. -/
structure TransactionPoolStats where
  bytes_max : Nat
  bytes_med : Nat
  bytes_min : Nat
  bytes_total : Nat
  num_10m : Nat
  num_double_spends : Nat
  num_failing : Nat
  num_not_relayed : Nat
  oldest : Nat
  txs_total : Nat
deriving DecidableEq, Repr

/-- `TransactionPoolStatsResponse` of src/client.rs. -/
structure TransactionPoolStatsResponse where
  pool_stats : TransactionPoolStats
  untrusted : Bool
deriving DecidableEq, Repr

/-! ### src/prometheus.rs -/

/-- Model of `std::fmt::Error` (a unit struct). -/
structure FmtError where
deriving DecidableEq, Repr

/-- `MetricType` of src/prometheus.rs (gauge only). -/
inductive MetricType where
  | Gauge : MetricType
deriving DecidableEq, Repr

/-- `MetricLabel` of src/prometheus.rs. -/
structure MetricLabel where
  name : String
  value : String
deriving DecidableEq, Repr

/-- `MetricValue` of src/prometheus.rs. -/
structure MetricValue where
  label : Option MetricLabel
  value : F
deriving DecidableEq, Repr

/-- `Metric` of src/prometheus.rs. -/
structure Metric where
  t : MetricType
  name : String
  values : List MetricValue
deriving DecidableEq, Repr

/-- `Metric::new_gauge`. -/
def Metric.new_gauge (name : String) (value : F) : Metric :=
  { t := .Gauge, name := name, values := [{ label := none, value := value }] }

/-- `Metric::new_gauge_with_label_values`. -/
def Metric.new_gauge_with_label_values (name label_name : String)
    (values : List (String × F)) : Metric :=
  { t := .Gauge
    name := name
    values := values.map (fun lv =>
      { label := some { name := label_name, value := lv.1 }, value := lv.2 }) }

/-- The `# TYPE` keyword for a metric type. -/
def MetricType.render : MetricType → String
  | .Gauge => "gauge"

/-- One sample line of `Metric::render`: the name, the label clause when the
value carries a label (omitted otherwise), a space and the value. -/
def MetricValue.renderLine (name : String) (v : MetricValue) : String :=
  name ++
    (match v.label with
     | some label => "\x7b" ++ label.name ++ "=\"" ++ label.value ++ "\"\x7d"
     | none => "") ++
    " " ++ fmtF v.value ++ "\n"

/-- The text produced by `Metric::render` into its sink. -/
def Metric.renderStr (m : Metric) : String :=
  "# HELP " ++ m.name ++ "\n" ++
  "# TYPE " ++ m.name ++ " " ++ m.t.render ++ "\n" ++
  String.join (m.values.map (MetricValue.renderLine m.name))

/-- `Metric::render` (src/prometheus.rs lines 60-77).  Writing into a Rust
`String` sink is infallible, so the `fmt::Result` is always `Ok`. -/
def Metric.render (m : Metric) : Except FmtError String :=
  .ok m.renderStr

/-- `render_metrics` of src/prometheus.rs: renders each metric in list order
into the shared sink, propagating the first error. -/
def render_metrics (metrics : List Metric) : Except FmtError String :=
  metrics.foldl
    (fun acc m => acc.bind (fun s => m.render.map (fun t => s ++ t)))
    (.ok "")

/-! ### src/metrics.rs -/

/-- `ExportError` of src/metrics.rs. -/
inductive ExportError where
  | Client : ClientError → ExportError
  | Renderer : FmtError → ExportError
  | Untrusted : ExportError
deriving DecidableEq, Repr

/-- `BlocksMetrics` of src/metrics.rs; the fields are `f64`. -/
structure BlocksMetrics where
  avg_txes : F
  max_txes : F
  avg_reward : F
  max_reward : F
  avg_size : F
  max_size : F
deriving DecidableEq, Repr

/-- `Default` for `BlocksMetrics`: every `f64` field is `0.0`. -/
def BlocksMetrics.default : BlocksMetrics :=
  { avg_txes := .num 0, max_txes := .num 0
    avg_reward := .num 0, max_reward := .num 0
    avg_size := .num 0, max_size := .num 0 }

/-- The `Exporter` struct of src/metrics.rs, minus the client handle (gateway
responses are passed explicitly to `export`). -/
structure Exporter where
  max_block_span : Nat
  block_spans : List Nat
deriving DecidableEq, Repr

/-- `Exporter::new`: an empty span list is coerced to `[1]`, and
`max_block_span` is the maximum of the resulting list. -/
def Exporter.new (block_spans : List Nat) : Exporter :=
  let block_spans := if block_spans.isEmpty then [1] else block_spans
  let max_block_span := block_spans.max?.getD 1
  { max_block_span := max_block_span, block_spans := block_spans }

/-- `Exporter::get_blocks_metrics` (src/metrics.rs lines 66-89): take the
first `count` headers, drop orphans, fold sums and maxima, then divide the
sums by the filtered length. -/
def Exporter.get_blocks_metrics (headers : List BlockHeader) (count : Nat) :
    BlocksMetrics :=
  let non_orphan_blocks := (headers.take count).filter (fun h => !h.orphan_status)
  let blocks_metrics := non_orphan_blocks.foldl
    (fun acc block =>
      { avg_txes := acc.avg_txes.add (.num block.num_txes)
        max_txes := acc.max_txes.max (.num block.num_txes)
        avg_reward := acc.avg_reward.add (.num block.reward)
        max_reward := acc.max_reward.max (.num block.reward)
        avg_size := acc.avg_size.add (.num block.block_size)
        max_size := acc.max_size.max (.num block.block_size) })
    BlocksMetrics.default
  { blocks_metrics with
    avg_txes := blocks_metrics.avg_txes.div (.num non_orphan_blocks.length)
    avg_reward := blocks_metrics.avg_reward.div (.num non_orphan_blocks.length)
    avg_size := blocks_metrics.avg_size.div (.num non_orphan_blocks.length) }

/-- One RPC call issued by the exporter, for the call trace. -/
inductive GatewayCall where
  | getInfo : GatewayCall
  | getTransactionPoolStats : GatewayCall
  | getBlockHeadersRange : BlockHeadersRangeRequest → GatewayCall
deriving DecidableEq, Repr

/-- The gateway's responses for one export cycle: what `Client::get_info`,
`Client::get_transaction_pool_stats` and `Client::get_block_headers_range`
return when called. -/
structure Gateway where
  info : Except ClientError InfoResponse
  poolStats : Except ClientError TransactionPoolStatsResponse
  headersRange : BlockHeadersRangeRequest → Except ClientError BlockHeadersRangeResponse

/-- The nine node-level gauges of `Exporter::export`, in source order. -/
def nodeMetricsOf (info : InfoResponse) : List Metric :=
  [ .new_gauge "monero_node_database_size" (.num info.database_size)
  , .new_gauge "monero_node_free_space" (.num info.free_space)
  , .new_gauge "monero_node_grey_peerlist_size" (.num info.grey_peerlist_size)
  , .new_gauge "monero_node_incoming_connections_count" (.num info.incoming_connections_count)
  , .new_gauge "monero_node_offline" (.num (if info.offline then 1 else 0))
  , .new_gauge "monero_node_outgoing_connections_count" (.num info.outgoing_connections_count)
  , .new_gauge "monero_node_rpc_connections_count" (.num info.rpc_connections_count)
  , .new_gauge "monero_node_synchronized" (.num (if info.synchronized then 1 else 0))
  , .new_gauge "monero_node_white_peerlist_size" (.num info.white_peerlist_size) ]

/-- The ten transaction-pool gauges of `Exporter::export`, in source order. -/
def poolMetricsOf (pool_stats : TransactionPoolStats) : List Metric :=
  [ .new_gauge "monero_txpool_bytes_max" (.num pool_stats.bytes_max)
  , .new_gauge "monero_txpool_bytes_med" (.num pool_stats.bytes_med)
  , .new_gauge "monero_txpool_bytes_min" (.num pool_stats.bytes_min)
  , .new_gauge "monero_txpool_bytes_total" (.num pool_stats.bytes_total)
  , .new_gauge "monero_txpool_double_spends" (.num pool_stats.num_double_spends)
  , .new_gauge "monero_txpool_txs_failing" (.num pool_stats.num_failing)
  , .new_gauge "monero_txpool_txs_not_relayed" (.num pool_stats.num_not_relayed)
  , .new_gauge "monero_txpool_oldest_tx" (.num pool_stats.oldest)
  , .new_gauge "monero_txpool_txs_above_10min" (.num pool_stats.num_10m)
  , .new_gauge "monero_txpool_txs_total" (.num pool_stats.txs_total) ]

/-- The ten network gauges of `Exporter::export`, in source order. -/
def networkMetricsOf (info : InfoResponse) : List Metric :=
  [ .new_gauge "monero_network_block_size_limit" (.num info.block_size_limit)
  , .new_gauge "monero_network_block_size_median" (.num info.block_size_median)
  , .new_gauge "monero_network_block_weight_limit" (.num info.block_weight_limit)
  , .new_gauge "monero_network_block_weight_median" (.num info.block_weight_median)
  , .new_gauge "monero_network_cumulative_difficulty" (.num info.cumulative_difficulty)
  , .new_gauge "monero_network_difficulty" (.num info.difficulty)
  , .new_gauge "monero_network_height" (.num info.height)
  , .new_gauge "monero_network_target" (.num info.target)
  , .new_gauge "monero_network_target_height" (.num info.target_height)
  , .new_gauge "monero_network_tx_count" (.num info.tx_count) ]

/-- The six per-span block-metric families of `Exporter::export`, in source
order: for each family name, one labelled value per configured span (label
key `block_count`, label value the span in decimal). -/
def blockMetricsOf (block_spans : List Nat) (headers : List BlockHeader) :
    List Metric :=
  let blocks_metrics := block_spans.map
    (fun count => (toString count, Exporter.get_blocks_metrics headers count))
  let push_blocks_metric := fun (name : String) (metric_selector : BlocksMetrics → F) =>
    Metric.new_gauge_with_label_values name "block_count"
      (blocks_metrics.map (fun cm => (cm.1, metric_selector cm.2)))
  [ push_blocks_metric "monero_blocks_avg_txes" (fun m => m.avg_txes)
  , push_blocks_metric "monero_blocks_max_txes" (fun m => m.max_txes)
  , push_blocks_metric "monero_blocks_avg_reward" (fun m => m.avg_reward)
  , push_blocks_metric "monero_blocks_max_reward" (fun m => m.max_reward)
  , push_blocks_metric "monero_blocks_avg_size" (fun m => m.avg_size)
  , push_blocks_metric "monero_blocks_max_size" (fun m => m.max_size) ]

/-- `Exporter::export` (src/metrics.rs lines 91-185), with the gateway's
responses passed in.  Returns the cycle result together with the trace of
gateway calls issued.  `checked_sub(..).unwrap_or(0)` is truncated `Nat`
subtraction.  `try_join!` issues both fan-out calls and fails if either
fails (both calls appear in the trace). -/
def Exporter.export (e : Exporter) (g : Gateway) :
    Except ExportError String × List GatewayCall :=
  match g.info with
  | .error err => (.error (.Client err), [.getInfo])
  | .ok info =>
      if info.untrusted then
        (.error .Untrusted, [.getInfo])
      else
        let node_metrics := nodeMetricsOf info
        if !info.synchronized then
          ((render_metrics node_metrics).mapError ExportError.Renderer, [.getInfo])
        else
          let block_headers_req : BlockHeadersRangeRequest :=
            { start_height := info.height - e.max_block_span
              end_height := info.height - 1 }
          let calls := [.getInfo, .getTransactionPoolStats,
                        .getBlockHeadersRange block_headers_req]
          match g.poolStats, g.headersRange block_headers_req with
          | .error err, _ => (.error (.Client err), calls)
          | .ok _, .error err => (.error (.Client err), calls)
          | .ok tx_pool_stats, .ok block_headers =>
              let metrics :=
                node_metrics ++
                poolMetricsOf tx_pool_stats.pool_stats ++
                networkMetricsOf info ++
                blockMetricsOf e.block_spans block_headers.headers
              ((render_metrics metrics).mapError ExportError.Renderer, calls)

/-! ### Publisher (src/metrics.rs lines 188-229) -/

/-- `Publisher::get_metrics`: a non-blocking read of the current snapshot. -/
def Publisher.get_metrics (snapshot : Option String) : Option String :=
  snapshot

/-- One iteration of the loop body of `Publisher::run`: the export result is
converted to `Some text` on success and `None` on any failure, and is then
written over the previous snapshot unconditionally. -/
def Publisher.cycle (result : Except ExportError String)
    (_prev : Option String) : Option String :=
  match result with
  | .ok r => some r
  | .error _ => none

/-- One full Publisher cycle driven by a gateway: run `Exporter::export` and
store its outcome into the snapshot. -/
def Publisher.step (e : Exporter) (g : Gateway) (snapshot : Option String) :
    Option String :=
  Publisher.cycle (e.export g).1 snapshot

/-! ### Concrete fixtures for instantiating the theorems -/

/-- A concrete synchronized, trusted node info record. -/
def sampleInfo : InfoResponse :=
  { block_size_limit := 600000, block_size_median := 300000
    block_weight_limit := 600000, block_weight_median := 300000
    cumulative_difficulty := 5000, database_size := 4096, difficulty := 70
    free_space := 9999, grey_peerlist_size := 5, height := 100
    incoming_connections_count := 3, offline := false
    outgoing_connections_count := 8, rpc_connections_count := 2
    synchronized := true, target := 120, target_height := 100, tx_count := 42
    tx_pool_size := 7, untrusted := false, white_peerlist_size := 11 }

/-- The same node, not yet synchronized. -/
def sampleInfoUnsynced : InfoResponse := { sampleInfo with synchronized := false }

/-- The same node, flagged untrusted. -/
def sampleInfoUntrusted : InfoResponse := { sampleInfo with untrusted := true }

/-- A concrete transaction-pool statistics response. -/
def samplePool : TransactionPoolStatsResponse :=
  { pool_stats :=
      { bytes_max := 10, bytes_med := 5, bytes_min := 1, bytes_total := 16
        num_10m := 2, num_double_spends := 0, num_failing := 1
        num_not_relayed := 0, oldest := 123, txs_total := 4 }
    untrusted := false }

/-- A concrete block-header window response. -/
def sampleHeaders : BlockHeadersRangeResponse :=
  { headers := [⟨10, 2, false, 100⟩], untrusted := false }

/-- A gateway for a fully successful cycle. -/
def gwOk : Gateway :=
  { info := .ok sampleInfo
    poolStats := .ok samplePool
    headersRange := fun _ => .ok sampleHeaders }

/-- A gateway whose node is trusted but not synchronized. -/
def gwUnsynced : Gateway := { gwOk with info := .ok sampleInfoUnsynced }

/-- A gateway whose node flags its responses untrusted. -/
def gwUntrusted : Gateway := { gwOk with info := .ok sampleInfoUntrusted }

/-- A gateway whose transport is down. -/
def gwDown : Gateway :=
  { info := .error (.HttpClient ⟨"connection refused"⟩)
    poolStats := .error (.HttpClient ⟨"connection refused"⟩)
    headersRange := fun _ => .error (.HttpClient ⟨"connection refused"⟩) }

/-- An exporter over the default span configuration. -/
def sampleExporter : Exporter := Exporter.new [30, 180, 720]

/-! ### Helper lemmas -/

theorem F.add_num (a b : ℚ) : (F.num a).add (F.num b) = F.num (a + b) := rfl

theorem F.max_num (a b : ℚ) : (F.num a).max (F.num b) = F.num (Max.max a b) := rfl

theorem F.div_num_of_ne (a b : ℚ) (h : b ≠ 0) :
    (F.num a).div (F.num b) = F.num (a / b) := by
  simp [F.div, h]

theorem F.div_zero_zero : (F.num 0).div (F.num 0) = F.nan := by
  simp [F.div]

theorem render_metrics_foldl (ms : List Metric) (s : String) :
    ms.foldl (fun acc m => acc.bind (fun s => m.render.map (fun t => s ++ t)))
      (Except.ok s) =
    .ok (ms.foldl (fun s m => s ++ m.renderStr) s) := by
  induction ms generalizing s with
  | nil => rfl
  | cons m rest ih => exact ih (s ++ m.renderStr)

/-- The renderer never fails: writing into a `String` sink is infallible. -/
theorem render_metrics_ok (ms : List Metric) :
    render_metrics ms = .ok (ms.foldl (fun s m => s ++ m.renderStr) "") :=
  render_metrics_foldl ms ""

theorem blocks_fold (l : List BlockHeader) (a₁ a₂ a₃ a₄ a₅ a₆ : ℚ) :
    l.foldl
      (fun (acc : BlocksMetrics) block =>
        { avg_txes := acc.avg_txes.add (.num block.num_txes)
          max_txes := acc.max_txes.max (.num block.num_txes)
          avg_reward := acc.avg_reward.add (.num block.reward)
          max_reward := acc.max_reward.max (.num block.reward)
          avg_size := acc.avg_size.add (.num block.block_size)
          max_size := acc.max_size.max (.num block.block_size) })
      ⟨.num a₁, .num a₂, .num a₃, .num a₄, .num a₅, .num a₆⟩ =
    (⟨.num (a₁ + (l.map fun h => (h.num_txes : ℚ)).sum),
     .num ((l.map fun h => (h.num_txes : ℚ)).foldl Max.max a₂),
     .num (a₃ + (l.map fun h => (h.reward : ℚ)).sum),
     .num ((l.map fun h => (h.reward : ℚ)).foldl Max.max a₄),
     .num (a₅ + (l.map fun h => (h.block_size : ℚ)).sum),
     .num ((l.map fun h => (h.block_size : ℚ)).foldl Max.max a₆)⟩ : BlocksMetrics) := by
  induction l generalizing a₁ a₂ a₃ a₄ a₅ a₆ with
  | nil => simp
  | cons h t ih =>
      refine (ih (a₁ + h.num_txes) (Max.max a₂ h.num_txes) (a₃ + h.reward)
        (Max.max a₄ h.reward) (a₅ + h.block_size) (Max.max a₆ h.block_size)).trans ?_
      simp [add_assoc]

/-- Characterization of `Exporter::get_blocks_metrics` in terms of the
filtered non-orphan prefix. -/
theorem get_blocks_metrics_eq (headers : List BlockHeader) (count : Nat) :
    Exporter.get_blocks_metrics headers count =
      { avg_txes :=
          (F.num (((headers.take count).filter (fun h => !h.orphan_status)).map
              (fun h => (h.num_txes : ℚ))).sum).div
            (.num (((headers.take count).filter (fun h => !h.orphan_status)).length))
        max_txes :=
          .num ((((headers.take count).filter (fun h => !h.orphan_status)).map
            (fun h => (h.num_txes : ℚ))).foldl Max.max 0)
        avg_reward :=
          (F.num (((headers.take count).filter (fun h => !h.orphan_status)).map
              (fun h => (h.reward : ℚ))).sum).div
            (.num (((headers.take count).filter (fun h => !h.orphan_status)).length))
        max_reward :=
          .num ((((headers.take count).filter (fun h => !h.orphan_status)).map
            (fun h => (h.reward : ℚ))).foldl Max.max 0)
        avg_size :=
          (F.num (((headers.take count).filter (fun h => !h.orphan_status)).map
              (fun h => (h.block_size : ℚ))).sum).div
            (.num (((headers.take count).filter (fun h => !h.orphan_status)).length))
        max_size :=
          .num ((((headers.take count).filter (fun h => !h.orphan_status)).map
            (fun h => (h.block_size : ℚ))).foldl Max.max 0) } := by
  simp only [Exporter.get_blocks_metrics]
  rw [show BlocksMetrics.default =
        (⟨.num 0, .num 0, .num 0, .num 0, .num 0, .num 0⟩ : BlocksMetrics) from rfl,
      blocks_fold]
  simp

theorem le_foldl_max (l : List ℚ) (a : ℚ) : a ≤ l.foldl Max.max a := by
  induction l generalizing a with
  | nil => exact le_refl a
  | cons x t ih => exact le_trans (le_max_left a x) (ih (Max.max a x))

theorem foldl_max_le_of_mem (l : List ℚ) (a x : ℚ) (hx : x ∈ l) :
    x ≤ l.foldl Max.max a := by
  induction l generalizing a with
  | nil => cases hx
  | cons y t ih =>
      rcases List.mem_cons.mp hx with h | h
      · subst h
        exact le_trans (le_max_right a x) (le_foldl_max t (Max.max a x))
      · exact ih (Max.max a y) h

theorem foldl_max_eq_or_mem (l : List ℚ) (a : ℚ) :
    l.foldl Max.max a = a ∨ l.foldl Max.max a ∈ l := by
  induction l generalizing a with
  | nil => exact Or.inl rfl
  | cons x t ih =>
      rcases ih (Max.max a x) with h | h
      · rcases max_choice a x with hc | hc
        · exact Or.inl (by rw [List.foldl_cons, h, hc])
        · exact Or.inr (by rw [List.foldl_cons, h, hc]; exact List.mem_cons_self x t)
      · exact Or.inr (List.mem_cons_of_mem x h)

/-- A nonempty fold of `max` from 0 over nonnegative casts is attained by an
element that dominates all elements. -/
theorem exists_fold_max_witness (l : List BlockHeader) (f : BlockHeader → Nat)
    (hne : l ≠ []) :
    ∃ h ∈ l, ((l.map fun x => (f x : ℚ)).foldl Max.max 0 = (f h : ℚ)) ∧
      ∀ h' ∈ l, f h' ≤ f h := by
  rcases foldl_max_eq_or_mem (l.map fun x => (f x : ℚ)) 0 with h0 | hmem
  · rcases List.exists_mem_of_ne_nil l hne with ⟨h, hh⟩
    have hle : (f h : ℚ) ≤ 0 := by
      rw [← h0]
      exact foldl_max_le_of_mem _ 0 _ (List.mem_map_of_mem _ hh)
    have hfh : (f h : ℚ) = 0 := le_antisymm hle (by positivity)
    refine ⟨h, hh, by rw [h0, hfh], fun h' hh' => ?_⟩
    have hle' : (f h' : ℚ) ≤ 0 := by
      rw [← h0]
      exact foldl_max_le_of_mem _ 0 _ (List.mem_map_of_mem _ hh')
    have : (f h' : ℚ) = 0 := le_antisymm hle' (by positivity)
    have hz : f h' = 0 := by exact_mod_cast this
    simp [hz]
  · rcases List.mem_map.mp hmem with ⟨h, hh, hfh⟩
    refine ⟨h, hh, hfh.symm, fun h' hh' => ?_⟩
    have : (f h' : ℚ) ≤ (f h : ℚ) := by
      rw [hfh]
      exact foldl_max_le_of_mem _ 0 _ (List.mem_map_of_mem _ hh')
    exact_mod_cast this

/-- Taking `min count len` entries is the same as taking `count`. -/
theorem take_min_eq (l : List BlockHeader) (n : Nat) :
    l.take (min n l.length) = l.take n := by
  rw [← List.take_take, List.take_length]

/-! ### Claims about the Aggregator -/

/-- C1: for every header window `W` and span count `S`,
`get_blocks_metrics(W, S)` takes the first `min(S, len(W))` entries of `W`,
discards those flagged orphan, and over the remaining (nonempty) set returns
each average equal to the arithmetic mean (sum divided by the filtered set's
length) of the field, and each maximum attained by an entry of the filtered
set that dominates every entry of the filtered set. -/
theorem C1_blocks_metrics_mean_max (W : List BlockHeader) (S : Nat)
    (filtered : List BlockHeader)
    (hf : filtered = (W.take (min S W.length)).filter (fun h => !h.orphan_status))
    (hne : filtered ≠ []) :
    (Exporter.get_blocks_metrics W S).avg_txes =
      .num ((filtered.map fun h => (h.num_txes : ℚ)).sum / filtered.length) ∧
    (Exporter.get_blocks_metrics W S).avg_reward =
      .num ((filtered.map fun h => (h.reward : ℚ)).sum / filtered.length) ∧
    (Exporter.get_blocks_metrics W S).avg_size =
      .num ((filtered.map fun h => (h.block_size : ℚ)).sum / filtered.length) ∧
    (∃ h ∈ filtered, (Exporter.get_blocks_metrics W S).max_txes = .num h.num_txes ∧
      ∀ h' ∈ filtered, h'.num_txes ≤ h.num_txes) ∧
    (∃ h ∈ filtered, (Exporter.get_blocks_metrics W S).max_reward = .num h.reward ∧
      ∀ h' ∈ filtered, h'.reward ≤ h.reward) ∧
    (∃ h ∈ filtered, (Exporter.get_blocks_metrics W S).max_size = .num h.block_size ∧
      ∀ h' ∈ filtered, h'.block_size ≤ h.block_size) := by
  have hf' : filtered = (W.take S).filter (fun h => !h.orphan_status) := by
    rw [hf, take_min_eq]
  have hlen : ((filtered.length : ℚ)) ≠ 0 := by
    simpa using fun h => hne (List.eq_nil_of_length_eq_zero h)
  rw [get_blocks_metrics_eq, ← hf']
  refine ⟨?_, ?_, ?_, ?_, ?_, ?_⟩
  · exact F.div_num_of_ne _ _ hlen
  · exact F.div_num_of_ne _ _ hlen
  · exact F.div_num_of_ne _ _ hlen
  · rcases exists_fold_max_witness filtered (fun h => h.num_txes) hne with ⟨h, hh, he, hd⟩
    exact ⟨h, hh, by rw [he], hd⟩
  · rcases exists_fold_max_witness filtered (fun h => h.reward) hne with ⟨h, hh, he, hd⟩
    exact ⟨h, hh, by rw [he], hd⟩
  · rcases exists_fold_max_witness filtered (fun h => h.block_size) hne with ⟨h, hh, he, hd⟩
    exact ⟨h, hh, by rw [he], hd⟩

theorem C1_blocks_metrics_mean_max_witness :
    ([(⟨10, 2, false, 100⟩ : BlockHeader), ⟨20, 4, false, 200⟩] ≠
        ([] : List BlockHeader)) ∧
    (Exporter.get_blocks_metrics
        [⟨10, 2, false, 100⟩, ⟨20, 4, false, 200⟩, ⟨30, 6, false, 300⟩] 2).avg_txes =
      .num ((([(⟨10, 2, false, 100⟩ : BlockHeader), ⟨20, 4, false, 200⟩].map
        fun h => (h.num_txes : ℚ)).sum) / 2) :=
  ⟨by decide,
   (C1_blocks_metrics_mean_max
      [⟨10, 2, false, 100⟩, ⟨20, 4, false, 200⟩, ⟨30, 6, false, 300⟩] 2
      [⟨10, 2, false, 100⟩, ⟨20, 4, false, 200⟩] (by decide) (by decide)).1⟩

/-- C10: when the filtered non-orphan prefix is empty, the three maximum
fields of `get_blocks_metrics` are exactly 0 (the fold's identity element),
not NaN and not an error. -/
theorem C10_blocks_metrics_empty_max_zero (W : List BlockHeader) (S : Nat)
    (hempty : (W.take S).filter (fun h => !h.orphan_status) = []) :
    (Exporter.get_blocks_metrics W S).max_txes = .num 0 ∧
    (Exporter.get_blocks_metrics W S).max_reward = .num 0 ∧
    (Exporter.get_blocks_metrics W S).max_size = .num 0 ∧
    (Exporter.get_blocks_metrics W S).max_txes ≠ .nan := by
  rw [get_blocks_metrics_eq, hempty]
  refine ⟨rfl, rfl, rfl, by simp⟩

theorem C10_blocks_metrics_empty_max_zero_witness :
    (([] : List BlockHeader).take 0).filter (fun h => !h.orphan_status) = [] ∧
    (Exporter.get_blocks_metrics [] 0).max_txes = .num 0 :=
  ⟨by decide, (C10_blocks_metrics_empty_max_zero [] 0 (by decide)).1⟩

/-- C7: when the filtered non-orphan prefix is empty, the three averages of
`get_blocks_metrics` are the not-a-number value, returned as ordinary output;
the renderer always succeeds on any metric list, and rendering a gauge holding
such a NaN emits the value token `NaN`. -/
theorem C7_empty_filtered_nan_renders (W : List BlockHeader) (S : Nat)
    (hempty : (W.take S).filter (fun h => !h.orphan_status) = []) :
    (Exporter.get_blocks_metrics W S).avg_txes = .nan ∧
    (Exporter.get_blocks_metrics W S).avg_reward = .nan ∧
    (Exporter.get_blocks_metrics W S).avg_size = .nan ∧
    (∀ ms : List Metric, ∃ s, render_metrics ms = .ok s) ∧
    (∀ name : String,
      (Metric.new_gauge name (Exporter.get_blocks_metrics W S).avg_txes).render =
        .ok ("# HELP " ++ name ++ "\n# TYPE " ++ name ++ " gauge\n" ++
             name ++ " NaN\n")) := by
  have hnan : (Exporter.get_blocks_metrics W S).avg_txes = .nan ∧
      (Exporter.get_blocks_metrics W S).avg_reward = .nan ∧
      (Exporter.get_blocks_metrics W S).avg_size = .nan := by
    rw [get_blocks_metrics_eq, hempty]
    exact ⟨F.div_zero_zero, F.div_zero_zero, F.div_zero_zero⟩
  refine ⟨hnan.1, hnan.2.1, hnan.2.2, fun ms => ⟨_, render_metrics_ok ms⟩, fun name => ?_⟩
  rw [hnan.1]
  simp [Metric.render, Metric.renderStr, Metric.new_gauge, MetricValue.renderLine,
    MetricType.render, fmtF, String.join, String.append_assoc]

theorem C7_empty_filtered_nan_renders_witness :
    (([(⟨10, 2, true, 100⟩ : BlockHeader)].take 1).filter
        (fun h => !h.orphan_status) = []) ∧
    (Exporter.get_blocks_metrics [⟨10, 2, true, 100⟩] 1).avg_txes = .nan ∧
    (Metric.new_gauge "monero_blocks_avg_txes"
        (Exporter.get_blocks_metrics [⟨10, 2, true, 100⟩] 1).avg_txes).render =
      .ok ("# HELP monero_blocks_avg_txes\n# TYPE monero_blocks_avg_txes gauge\n" ++
           "monero_blocks_avg_txes NaN\n") :=
  ⟨by decide,
   (C7_empty_filtered_nan_renders [⟨10, 2, true, 100⟩] 1 (by decide)).1,
   by
    have := (C7_empty_filtered_nan_renders [⟨10, 2, true, 100⟩] 1 (by decide)).2.2.2.2
      "monero_blocks_avg_txes"
    simpa using this⟩

/-! ### Claims about the renderer and the client -/

theorem fracDigits_half : fracDigits 1100 ((1:ℚ)/2) = "5" := by
  show fracDigits (1099 + 1) ((1:ℚ)/2) = "5"
  rw [fracDigits, if_neg (by norm_num)]
  have h10 : (1:ℚ)/2 * 10 = 5 := by norm_num
  rw [h10]
  have hf : ⌊(5:ℚ)⌋ = 5 := by norm_num
  rw [hf]
  have hz : (5:ℚ) - ((5:ℤ) : ℚ) = 0 := by norm_num
  rw [hz]
  show toString (5:ℤ) ++ fracDigits (1098 + 1) 0 = "5"
  rw [fracDigits, if_pos rfl]
  decide

theorem fmtQ_three_halves : fmtQ ((3:ℚ)/2) = "1.5" := by
  have habs : |(3:ℚ)/2| = 3/2 := abs_of_nonneg (by norm_num)
  have hfloor : ⌊(3:ℚ)/2⌋ = 1 := by norm_num [Int.floor_eq_iff]
  rw [fmtQ, habs, hfloor]
  rw [if_neg (by norm_num), if_neg (by norm_num)]
  have hfp : (3:ℚ)/2 - ((1:ℤ) : ℚ) = 1/2 := by norm_num
  rw [hfp, fracDigits_half]
  decide

/-- C8: rendering the single unlabeled gauge named `x` with value 1.5
produces exactly `# HELP x\n# TYPE x gauge\nx 1.5\n`; in general, for an
unlabeled value the label clause between the name and the value is omitted. -/
theorem C8_render_unlabeled_gauge :
    (Metric.new_gauge "x" (.num (3/2))).render =
      .ok "# HELP x\n# TYPE x gauge\nx 1.5\n" ∧
    ∀ (name : String) (v : F),
      (Metric.new_gauge name v).render =
        .ok ("# HELP " ++ name ++ "\n# TYPE " ++ name ++ " gauge\n" ++
             name ++ " " ++ fmtF v ++ "\n") := by
  have hgen : ∀ (name : String) (v : F),
      (Metric.new_gauge name v).render =
        .ok ("# HELP " ++ name ++ "\n# TYPE " ++ name ++ " gauge\n" ++
             name ++ " " ++ fmtF v ++ "\n") := by
    intro name v
    simp [Metric.render, Metric.renderStr, Metric.new_gauge, MetricValue.renderLine,
      MetricType.render, String.join, String.append_assoc]
  refine ⟨?_, hgen⟩
  rw [hgen "x" (.num (3/2))]
  rw [show fmtF (.num (3/2)) = "1.5" from fmtQ_three_halves]
  exact congrArg Except.ok (by decide)

/-- C9: for every JSON response, the call logic fails with `NoResult` when the
result selector yields nothing, fails with `UnexpectedStatus` whenever the
selected result's status is absent, non-string, or a string other than
`"OK"` (independently of the decoder), decodes the payload only once the
status check passes, and these protocol errors are variants distinct from the
transport error. -/
theorem C9_call_status_logic {R : Type} (sel : Json → Option Json)
    (dec : Json → Except DeserializeError R) (resp : Json) :
    (sel resp = none → Client.call sel dec (.ok resp) = .error .NoResult) ∧
    (∀ result, sel resp = some result → jsonStatus result ≠ some "OK" →
      Client.call sel dec (.ok resp) = .error .UnexpectedStatus) ∧
    (∀ result, sel resp = some result → jsonStatus result = some "OK" →
      Client.call sel dec (.ok resp) =
        (dec result).mapError ClientError.ResponseDeserialization) ∧
    (∀ e, Client.call sel dec (.error e) = .error (.HttpClient e)) ∧
    (ClientError.NoResult ≠ ClientError.UnexpectedStatus ∧
      (∀ e, ClientError.NoResult ≠ ClientError.HttpClient e) ∧
      (∀ e, ClientError.UnexpectedStatus ≠ ClientError.HttpClient e)) := by
  refine ⟨fun hnone => ?_, fun result hsome hbad => ?_, fun result hsome hok => ?_,
    fun e => rfl, by simp, by simp, by simp⟩
  · simp [Client.call, hnone]
  · simp [Client.call, hsome, hbad]
  · simp [Client.call, hsome, hok]

theorem C9_call_status_logic_witness :
    Client.call Client.get_json_rpc_result (fun _ => Except.ok true)
        (.ok (Json.obj [])) = .error .NoResult ∧
    Client.call Client.get_json_rpc_result (fun _ => Except.ok true)
        (.ok (Json.obj [("result", Json.obj [("status", Json.str "BUSY")])])) =
      .error .UnexpectedStatus ∧
    Client.call Client.get_json_rpc_result (fun _ => Except.ok true)
        (.ok (Json.obj [("result", Json.obj [("status", Json.str "OK")])])) =
      .ok true :=
  ⟨(C9_call_status_logic Client.get_json_rpc_result (fun _ => Except.ok true)
      (Json.obj [])).1 rfl,
   (C9_call_status_logic Client.get_json_rpc_result (fun _ => Except.ok true)
      (Json.obj [("result", Json.obj [("status", Json.str "BUSY")])])).2.1
      (Json.obj [("status", Json.str "BUSY")]) rfl (by simp [jsonStatus, Json.get, Json.asStr]),
   ((C9_call_status_logic Client.get_json_rpc_result (fun _ => Except.ok true)
      (Json.obj [("result", Json.obj [("status", Json.str "OK")])])).2.2.1
      (Json.obj [("status", Json.str "OK")]) rfl rfl).trans rfl⟩

/-! ### Claims about the Exporter and Publisher -/

/-- C3: for every node info with `untrusted = true`, `export` fails with the
distinct `Untrusted` error, issues no gateway call beyond `get_info`,
produces no metrics, and a cycle ending this way leaves the snapshot
absent. -/
theorem C3_untrusted_fails_early (e : Exporter) (g : Gateway)
    (info : InfoResponse) (hi : g.info = .ok info)
    (hu : info.untrusted = true) :
    e.export g = (.error .Untrusted, [.getInfo]) ∧
    (∀ s, Publisher.cycle (e.export g).1 s = none) := by
  have hexp : e.export g = (.error .Untrusted, [.getInfo]) := by
    unfold Exporter.export
    rw [hi]
    simp [hu]
  exact ⟨hexp, fun s => by rw [hexp]; rfl⟩

theorem C3_untrusted_fails_early_witness :
    sampleExporter.export gwUntrusted = (.error .Untrusted, [.getInfo]) ∧
    Publisher.cycle (sampleExporter.export gwUntrusted).1 (some "stale") = none :=
  ⟨(C3_untrusted_fails_early sampleExporter gwUntrusted sampleInfoUntrusted
      rfl rfl).1,
   (C3_untrusted_fails_early sampleExporter gwUntrusted sampleInfoUntrusted
      rfl rfl).2 (some "stale")⟩

/-- C2: a successful cycle replaces the whole snapshot with the newly
rendered text, any failing cycle replaces it with absence regardless of the
previous snapshot, and after a success followed by any failure
`get_metrics()` returns absence, never the first cycle's text. -/
theorem C2_failure_clears_snapshot (e : Exporter) (g₁ g₂ : Gateway)
    (s₀ : Option String) (t : String) (err : ExportError)
    (h₁ : (e.export g₁).1 = .ok t) (h₂ : (e.export g₂).1 = .error err) :
    Publisher.get_metrics (Publisher.step e g₂ (Publisher.step e g₁ s₀)) = none ∧
    Publisher.get_metrics (Publisher.step e g₁ s₀) = some t ∧
    (∀ (r : Except ExportError String) (sa sb : Option String),
      Publisher.cycle r sa = Publisher.cycle r sb) := by
  refine ⟨?_, ?_, fun r sa sb => rfl⟩
  · simp [Publisher.step, Publisher.cycle, Publisher.get_metrics, h₂]
  · simp [Publisher.step, Publisher.cycle, Publisher.get_metrics, h₁]

theorem C2_failure_clears_snapshot_witness :
    Publisher.get_metrics
      (Publisher.step sampleExporter gwDown
        (Publisher.step sampleExporter gwOk none)) = none :=
  (C2_failure_clears_snapshot sampleExporter gwOk gwDown none _
    (.Client (.HttpClient ⟨"connection refused"⟩)) rfl rfl).1

/-- C4: for every node info with `untrusted = false` and
`synchronized = false`, `export` succeeds and returns exactly the rendering
of the 9 node-level gauges; their name list contains exactly the 9 node
gauge names and no tx-pool, network, or per-span block family. -/
theorem C4_unsynchronized_node_only (e : Exporter) (g : Gateway)
    (info : InfoResponse) (hi : g.info = .ok info)
    (hu : info.untrusted = false) (hs : info.synchronized = false) :
    (e.export g).1 =
      .ok ((nodeMetricsOf info).foldl (fun s m => s ++ m.renderStr) "") ∧
    (nodeMetricsOf info).map Metric.name =
      ["monero_node_database_size", "monero_node_free_space",
       "monero_node_grey_peerlist_size", "monero_node_incoming_connections_count",
       "monero_node_offline", "monero_node_outgoing_connections_count",
       "monero_node_rpc_connections_count", "monero_node_synchronized",
       "monero_node_white_peerlist_size"] := by
  constructor
  · unfold Exporter.export
    rw [hi]
    simp [hu, hs, render_metrics_ok]
    rfl
  · rfl

theorem C4_unsynchronized_node_only_witness :
    (sampleExporter.export gwUnsynced).1 =
      .ok ((nodeMetricsOf sampleInfoUnsynced).foldl
        (fun s m => s ++ m.renderStr) "") :=
  (C4_unsynchronized_node_only sampleExporter gwUnsynced sampleInfoUnsynced
    rfl rfl rfl).1

theorem export_trace_synced (e : Exporter) (g : Gateway) (info : InfoResponse)
    (hi : g.info = .ok info) (hu : info.untrusted = false)
    (hs : info.synchronized = true) :
    (e.export g).2 =
      [.getInfo, .getTransactionPoolStats,
       .getBlockHeadersRange ⟨info.height - e.max_block_span, info.height - 1⟩] := by
  unfold Exporter.export
  rw [hi]
  rcases hps : g.poolStats with e1 | p <;>
    rcases hhr : g.headersRange ⟨info.height - e.max_block_span, info.height - 1⟩
      with e2 | r <;>
    simp [hu, hs, hps, hhr]

theorem Exporter.new_max (spans : List Nat) (m : Nat) (hm : m ∈ spans)
    (hmax : ∀ x ∈ spans, x ≤ m) :
    (Exporter.new spans).max_block_span = m := by
  rcases spans with _ | ⟨a, l⟩
  · cases hm
  · have h : (a :: l).max? = some m := List.max?_eq_some_iff'.mpr ⟨hm, hmax⟩
    simp [Exporter.new, h]

/-- C5: for every node info and configured span list, the header-range
request issued by `export` has `start_height = max(height - max(spans), 0)`
and `end_height = max(height - 1, 0)` (stated over ℤ: the subtraction is
guarded and never wraps), where `max(spans)` is the largest configured
span. -/
theorem C5_header_range_window (spans : List Nat) (m : Nat) (g : Gateway)
    (info : InfoResponse) (hm : m ∈ spans) (hmax : ∀ x ∈ spans, x ≤ m)
    (hi : g.info = .ok info) (hu : info.untrusted = false)
    (hs : info.synchronized = true) :
    ∃ req : BlockHeadersRangeRequest,
      GatewayCall.getBlockHeadersRange req ∈ ((Exporter.new spans).export g).2 ∧
      (req.start_height : ℤ) = Max.max ((info.height : ℤ) - (m : ℤ)) 0 ∧
      (req.end_height : ℤ) = Max.max ((info.height : ℤ) - 1) 0 := by
  refine ⟨⟨info.height - m, info.height - 1⟩, ?_, ?_, ?_⟩
  · rw [export_trace_synced (Exporter.new spans) g info hi hu hs,
        Exporter.new_max spans m hm hmax]
    simp
  · show ((info.height - m : Nat) : ℤ) = Max.max ((info.height : ℤ) - (m : ℤ)) 0
    omega
  · show ((info.height - 1 : Nat) : ℤ) = Max.max ((info.height : ℤ) - 1) 0
    omega

theorem C5_header_range_window_witness :
    ∃ req : BlockHeadersRangeRequest,
      GatewayCall.getBlockHeadersRange req ∈
        ((Exporter.new [30, 180, 720]).export gwOk).2 ∧
      (req.start_height : ℤ) = Max.max ((sampleInfo.height : ℤ) - (720 : ℤ)) 0 ∧
      (req.end_height : ℤ) = Max.max ((sampleInfo.height : ℤ) - 1) 0 :=
  C5_header_range_window [30, 180, 720] 720 gwOk sampleInfo (by decide)
    (by decide) rfl rfl rfl

/-- C6: for every fully successful export cycle, the metric list passed to
the renderer has the fixed order 9 node gauges, 10 tx-pool gauges, 10
network gauges, then 6 per-span block families (avg/max of txes, reward,
size), each family carrying one value per configured span labelled with key
`block_count` and the span as decimal string, with the per-span aggregates
of `get_blocks_metrics` as values. -/
theorem C6_metric_order (e : Exporter) (g : Gateway) (info : InfoResponse)
    (tps : TransactionPoolStatsResponse) (bhr : BlockHeadersRangeResponse)
    (hi : g.info = .ok info) (hu : info.untrusted = false)
    (hs : info.synchronized = true) (hps : g.poolStats = .ok tps)
    (hhr : g.headersRange ⟨info.height - e.max_block_span, info.height - 1⟩ =
      .ok bhr) :
    (e.export g).1 =
      (render_metrics (nodeMetricsOf info ++ poolMetricsOf tps.pool_stats ++
        networkMetricsOf info ++
        blockMetricsOf e.block_spans bhr.headers)).mapError ExportError.Renderer ∧
    (nodeMetricsOf info ++ poolMetricsOf tps.pool_stats ++ networkMetricsOf info ++
        blockMetricsOf e.block_spans bhr.headers).map Metric.name =
      ["monero_node_database_size", "monero_node_free_space",
       "monero_node_grey_peerlist_size", "monero_node_incoming_connections_count",
       "monero_node_offline", "monero_node_outgoing_connections_count",
       "monero_node_rpc_connections_count", "monero_node_synchronized",
       "monero_node_white_peerlist_size",
       "monero_txpool_bytes_max", "monero_txpool_bytes_med",
       "monero_txpool_bytes_min", "monero_txpool_bytes_total",
       "monero_txpool_double_spends", "monero_txpool_txs_failing",
       "monero_txpool_txs_not_relayed", "monero_txpool_oldest_tx",
       "monero_txpool_txs_above_10min", "monero_txpool_txs_total",
       "monero_network_block_size_limit", "monero_network_block_size_median",
       "monero_network_block_weight_limit", "monero_network_block_weight_median",
       "monero_network_cumulative_difficulty", "monero_network_difficulty",
       "monero_network_height", "monero_network_target",
       "monero_network_target_height", "monero_network_tx_count",
       "monero_blocks_avg_txes", "monero_blocks_max_txes",
       "monero_blocks_avg_reward", "monero_blocks_max_reward",
       "monero_blocks_avg_size", "monero_blocks_max_size"] ∧
    (∀ M ∈ blockMetricsOf e.block_spans bhr.headers,
      M.values.map MetricValue.label =
        e.block_spans.map (fun c =>
          some { name := "block_count", value := toString c })) ∧
    (blockMetricsOf e.block_spans bhr.headers).map
        (fun M => M.values.map MetricValue.value) =
      [e.block_spans.map (fun c => (Exporter.get_blocks_metrics bhr.headers c).avg_txes),
       e.block_spans.map (fun c => (Exporter.get_blocks_metrics bhr.headers c).max_txes),
       e.block_spans.map (fun c => (Exporter.get_blocks_metrics bhr.headers c).avg_reward),
       e.block_spans.map (fun c => (Exporter.get_blocks_metrics bhr.headers c).max_reward),
       e.block_spans.map (fun c => (Exporter.get_blocks_metrics bhr.headers c).avg_size),
       e.block_spans.map (fun c => (Exporter.get_blocks_metrics bhr.headers c).max_size)] := by
  refine ⟨?_, ?_, ?_, ?_⟩
  · unfold Exporter.export
    rw [hi]
    simp [hu, hs, hps, hhr]
  · rfl
  · intro M hM
    simp only [blockMetricsOf, List.mem_cons, List.not_mem_nil, or_false] at hM
    rcases hM with rfl | rfl | rfl | rfl | rfl | rfl <;>
      simp [Metric.new_gauge_with_label_values, List.map_map, Function.comp]
  · simp [blockMetricsOf, Metric.new_gauge_with_label_values, List.map_map,
      Function.comp]

theorem C6_metric_order_witness :
    (sampleExporter.export gwOk).1 =
      (render_metrics (nodeMetricsOf sampleInfo ++
        poolMetricsOf samplePool.pool_stats ++ networkMetricsOf sampleInfo ++
        blockMetricsOf sampleExporter.block_spans
          sampleHeaders.headers)).mapError ExportError.Renderer :=
  (C6_metric_order sampleExporter gwOk sampleInfo samplePool sampleHeaders
    rfl rfl rfl rfl rfl).1
